import Mathlib

/-!
Shallow embedding of the order-to-invoice reconciliation core of the
facturitrendy repository (src/app.py, src/trendyol_service.py,
src/user_manager.py), together with theorems settling the frozen claims.

External network calls (the marketplace order API, the invoicing API, the
postal-code directory) are modelled as oracle parameters: each embedded
function receives the responses those calls would produce.  Python dict
fields with falsy-string defaults are modelled as `String` fields where the
empty string stands for an absent value; fields whose default matters
(`currencyCode`, `orderDate`, `id`) are modelled as `Option`.
-/

namespace Facturi

/-- One order line as consumed by the code: `merchantSku`, `sku`, `barcode`,
`productName`, `quantity`, `price`, `vatRate` (trendyol_service.py:140-141,
app.py:1068-1189). -/
structure OrderLine where
  sku : String
  merchantSku : String
  barcode : String
  productName : String
  quantity : Nat
  price : Int
  vatRate : Int
deriving DecidableEq, Repr

/-- Address dict as read by `generate_invoice_data_from_order`
(app.py:1192-1199, 1270-1273); absent fields read back as `''`. -/
structure Address where
  address1 : String
  city : String
  district : String
  postalCode : String
  countryCode : String
deriving DecidableEq, Repr

/-- A marketplace order as consumed by the code.  `id` is `Option Nat`
(Python truthiness: `None` and `0` are falsy, trendyol_service.py:237);
`invoiceLink` is a `String` where `""` models a falsy/absent link
(app.py:1360); `currencyCode` keeps its `Option` because the code uses
two different defaults for it (app.py:1176 vs app.py:1279). -/
structure Order where
  id : Option Nat
  orderNumber : String
  orderDate : Option Nat
  lines : List OrderLine
  currencyCode : Option String
  invoiceLink : String
  customerFirstName : String
  customerLastName : String
  customerEmail : String
  identityNumber : String
  invoiceAddress : Address
  shipmentAddress : Address
deriving DecidableEq, Repr

/-- Structured error record `{'error': msg, 'status': code}` returned by the
fetch paths (trendyol_service.py:115-118, 125-128, 186-193). -/
structure ErrorResult where
  error : String
  status : Nat
deriving DecidableEq, Repr

/-- Page record `{content, page, size, totalElements, totalPages}` returned
by the order-fetch paths (trendyol_service.py:157-163, 291-297). -/
structure PageResult where
  content : List Order
  page : Nat
  size : Nat
  totalElements : Nat
  totalPages : Nat
deriving DecidableEq, Repr

/-- Oracle for one paginated request inside a fetch-all-pages loop: either
the page's `content` list, an HTTP error carrying `e.response.status_code`,
or a transport error (`requests.exceptions.RequestException`). -/
inductive PageResp where
  | ok (content : List Order)
  | httpErr (status : Nat) (msg : String)
  | netErr (msg : String)
deriving DecidableEq, Repr

/-- Oracle for the plain single-page fetch (trendyol_service.py:166-194),
whose success case returns the upstream page record unchanged. -/
inductive UpResp where
  | ok (result : PageResult)
  | httpErr (status : Nat) (msg : String)
  | netErr (msg : String)
deriving DecidableEq, Repr

/-- Python substring test `needle in hay` on character lists. -/
def subListOf (needle : List Char) : List Char → Bool
  | [] => needle.isEmpty
  | c :: rest => needle.isPrefixOf (c :: rest) || subListOf needle rest

/-- Case-insensitive substring test `sku.lower() in field.lower()`
(trendyol_service.py:143, 267). -/
def containsCI (needle hay : String) : Bool :=
  subListOf needle.toLower.toList hay.toLower.toList

/-- One line matches the SKU filter when the filter string occurs
case-insensitively in its `merchantSku` or its `barcode`
(trendyol_service.py:140-143). -/
def lineMatchesSku (sku : String) (l : OrderLine) : Bool :=
  containsCI sku l.merchantSku || containsCI sku l.barcode

/-- An order is kept by the client-side SKU filter when some line matches
(trendyol_service.py:136-145: append on first matching line). -/
def orderMatchesSku (sku : String) (o : Order) : Bool :=
  o.lines.any (lineMatchesSku sku)

/-- Client-side SKU filtering of a fetched order list
(trendyol_service.py:136-145, 257-271). -/
def skuFilterOrders (sku : String) (orders : List Order) : List Order :=
  orders.filter (orderMatchesSku sku)

/-- The fetch-all-pages loop from the second page on: collect each page's
content, stop on a short page (fewer than the requested 200), and stop
swallowing the failure on any request error (trendyol_service.py:91-131
for pages past the first, and trendyol_service.py:210-251 where every
page's failure is swallowed). -/
def collectPages : List PageResp → List Order
  | [] => []
  | PageResp.ok c :: rest => if c.length < 200 then c else c ++ collectPages rest
  | PageResp.httpErr _ _ :: _ => []
  | PageResp.netErr _ :: _ => []

/-- The SKU-path fetch-all-pages loop (trendyol_service.py:91-131): a failure
on page 0 is returned as a structured error; later pages are collected by
`collectPages`, whose failures only truncate. -/
def fetchAllPagesSku : List PageResp → Except ErrorResult (List Order)
  | [] => Except.ok []
  | PageResp.ok c :: rest =>
      Except.ok (if c.length < 200 then c else c ++ collectPages rest)
  | PageResp.httpErr s m :: _ =>
      Except.error { error := "Failed to fetch orders: " ++ m, status := s }
  | PageResp.netErr m :: _ =>
      Except.error { error := "Failed to fetch orders: " ++ m, status := 500 }

/-- Window `filtered[page*size : page*size+size]`
(trendyol_service.py:150-152, 281-283). -/
def paginateWindow (l : List Order) (page size : Nat) : List Order :=
  (l.drop (page * size)).take size

/-- Build the returned page record over a client-side result list
(trendyol_service.py:154-163, 285-297): `totalElements` is the filtered
count and `totalPages` is `(total + size - 1) // size` when `size > 0`. -/
def pageRecord (filtered : List Order) (page size : Nat) : PageResult :=
  let pag := paginateWindow filtered page size
  { content := pag
    page := page
    size := pag.length
    totalElements := filtered.length
    totalPages := if 0 < size then (filtered.length + size - 1) / size else 0 }

/-- The SKU-filtered single-status fetch path (trendyol_service.py:85-163):
fetch all pages, filter client-side, window the filtered list. -/
def getOrdersSku (pages : List PageResp) (sku : String) (page size : Nat) :
    Except ErrorResult PageResult :=
  match fetchAllPagesSku pages with
  | Except.error e => Except.error e
  | Except.ok allOrders =>
      Except.ok (pageRecord (skuFilterOrders sku allOrders) page size)

/-- Order identifier used for de-duplication:
`order.get('id') or order.get('orderNumber')` (trendyol_service.py:237);
a missing or zero `id` (both falsy in Python) falls back to the number. -/
def orderKey (o : Order) : Sum Nat String :=
  match o.id with
  | some n => if n = 0 then Sum.inr o.orderNumber else Sum.inl n
  | none => Sum.inr o.orderNumber

/-- Add one order to the accumulated `(all_orders, seen_order_ids)` pair,
skipping orders whose key was already seen (trendyol_service.py:235-240). -/
def addUnseen (st : List Order × List (Sum Nat String)) (o : Order) :
    List Order × List (Sum Nat String) :=
  if st.2.contains (orderKey o) then st else (st.1 ++ [o], st.2 ++ [orderKey o])

/-- Fetch every page of every status and accumulate de-duplicated orders
(trendyol_service.py:205-251). -/
def gatherStatuses (server : String → List PageResp) (statuses : List String) :
    List Order × List (Sum Nat String) :=
  statuses.foldl (fun st status => (collectPages (server status)).foldl addUnseen st)
    ([], [])

/-- Sort key `x.get('orderDate', 0)` (trendyol_service.py:276). -/
def dateKey (o : Order) : Nat :=
  o.orderDate.getD 0

/-- Stable ascending insertion by order date. -/
def insertByDate (a : Order) : List Order → List Order
  | [] => [a]
  | b :: bs => if dateKey a ≤ dateKey b then a :: b :: bs else b :: insertByDate a bs

/-- Stable ascending sort by order date, modelling the stable
`all_orders.sort(key=..., reverse=False)` (trendyol_service.py:275-278). -/
def sortByDate : List Order → List Order
  | [] => []
  | a :: as => insertByDate a (sortByDate as)

/-- The multi-status fetch path `_get_orders_multiple_statuses`
(trendyol_service.py:196-297): gather all statuses de-duplicated, apply the
client-side SKU filter when a SKU filter is present, sort ascending by order
date, window.  This path never produces an error record. -/
def getOrdersMulti (server : String → List PageResp) (statuses : List String)
    (page size : Nat) (sku : String) : PageResult :=
  let allOrders := (gatherStatuses server statuses).1
  let filtered := if sku ≠ "" then skuFilterOrders sku allOrders else allOrders
  pageRecord (sortByDate filtered) page size

/-- The plain single-page fetch (trendyol_service.py:166-194). -/
def singleFetch : UpResp → Except ErrorResult PageResult
  | UpResp.ok r => Except.ok r
  | UpResp.httpErr s m =>
      Except.error { error := "Failed to fetch orders: " ++ m, status := s }
  | UpResp.netErr m =>
      Except.error { error := "Failed to fetch orders: " ++ m, status := 500 }

/-- Python `',' in status` (trendyol_service.py:47). -/
def strContainsChar (s : String) (c : Char) : Bool :=
  s.toList.contains c

/-- Accumulator pass of `status.split(',')`: cut the character stream at
every comma, keeping empty segments like Python `str.split` with an
explicit separator. -/
def splitCommaAux : List Char → List Char → List String
  | [], acc => [String.mk acc.reverse]
  | ',' :: rest, acc => String.mk acc.reverse :: splitCommaAux rest []
  | c :: rest, acc => splitCommaAux rest (c :: acc)

/-- Python `status.split(',')` (trendyol_service.py:48). -/
def splitComma (s : String) : List String :=
  splitCommaAux s.toList []

/-- Python `s.strip()` (trendyol_service.py:48): drop leading and trailing
whitespace. -/
def stripStr (s : String) : String :=
  String.mk ((s.toList.dropWhile Char.isWhitespace).reverse.dropWhile
    Char.isWhitespace).reverse

/-- Dispatch of `TrendyolService.get_orders` (trendyol_service.py:31-194):
a comma inside a non-empty status string selects the multi-status path over
the stripped comma-separated components; otherwise a non-empty SKU selects
the fetch-all-then-filter path; otherwise one plain upstream page fetch. -/
def getOrders (server : String → List PageResp) (skuPages : List PageResp)
    (single : UpResp) (page size : Nat) (status sku : String) :
    Except ErrorResult PageResult :=
  if status ≠ "" ∧ strContainsChar status ',' then
    Except.ok (getOrdersMulti server ((splitComma status).map stripStr) page size sku)
  else if sku ≠ "" then
    getOrdersSku skuPages sku page size
  else
    singleFetch single

/-- Perfect upstream pagination: the responses a server holding the order
list `L` serves to a 200-sized page loop (page `p` answers
`L[200*p : 200*(p+1)]`, every request succeeding). -/
def pagesOf : List Order → List PageResp
  | [] => []
  | a :: rest =>
      PageResp.ok (List.take 200 (a :: rest)) :: pagesOf (List.drop 200 (a :: rest))
termination_by l => l.length
decreasing_by
  simp only [List.length_drop]
  simp only [List.length_cons]
  omega

/-- One row of the `order_invoices` table: `(user_id, order_id,
invoice_series, invoice_number)` (user_manager.py:53-62). -/
structure MappingRow where
  userId : Nat
  orderId : String
  invoiceSeries : String
  invoiceNumber : String
deriving DecidableEq, Repr

/-- The `DELETE FROM order_invoices WHERE user_id = ? AND order_id = ?`
statement (app.py:1393-1396). -/
def deleteMapping (uid : Nat) (oid : String) (store : List MappingRow) :
    List MappingRow :=
  store.filter (fun r => !(r.userId == uid && r.orderId == oid))

/-- The `INSERT INTO order_invoices` statement (app.py:1398-1402,
app.py:847-851). -/
def insertMapping (uid : Nat) (oid series number : String)
    (store : List MappingRow) : List MappingRow :=
  store ++ [{ userId := uid, orderId := oid, invoiceSeries := series,
              invoiceNumber := number }]

/-- The bulk-create success path for one order: delete any prior row for
this `(user, order)`, then insert the new one (app.py:1393-1402). -/
def saveInvoiceMapping (uid : Nat) (oid series number : String)
    (store : List MappingRow) : List MappingRow :=
  insertMapping uid oid series number (deleteMapping uid oid store)

/-- The `SELECT ... WHERE user_id = ? AND order_id = ?` duplicate probe
(app.py:821-824). -/
def lookupMapping (uid : Nat) (oid : String) (store : List MappingRow) :
    Option MappingRow :=
  store.find? (fun r => r.userId == uid && r.orderId == oid)

/-- The `SELECT order_id FROM order_invoices WHERE user_id = ?` gather step
of bulk-create (app.py:1319-1326). -/
def mappedOrderIds (uid : Nat) (store : List MappingRow) : List String :=
  (store.filter (fun r => r.userId == uid)).map (fun r => r.orderId)

/-- Bulk-create eligibility (app.py:1354-1361): the order number is not
among the user's mapped order ids and the order carries no invoice link. -/
def eligibleOrder (existing : List String) (o : Order) : Bool :=
  !(existing.contains o.orderNumber) && o.invoiceLink == ""

/-- The `orders_without_invoice` list comprehension (app.py:1357-1361). -/
def ordersWithoutInvoice (existing : List String) (allOrders : List Order) :
    List Order :=
  allOrders.filter (eligibleOrder existing)

/-- `orders_to_process = orders_without_invoice[:order_count]`
(app.py:1357-1364). -/
def ordersToProcess (existing : List String) (allOrders : List Order)
    (count : Nat) : List Order :=
  (ordersWithoutInvoice existing allOrders).take count

/-- Outcome oracle for one order's `generate_invoice_data_from_order` plus
`smartbill_service.create_invoice` round trip inside the bulk loop
(app.py:1372-1409): a result with `series`/`number`, a result dict carrying
`'error'`, or a raised exception caught by the per-order handler. -/
inductive CreateOutcome where
  | ok (series number : String)
  | err (msg : String)
  | exn (msg : String)
deriving DecidableEq, Repr

/-- The mutable loop state of the bulk-create per-order loop
(app.py:1366-1409). -/
structure BulkState where
  successful : Nat
  failed : Nat
  errors : List String
  store : List MappingRow
deriving DecidableEq, Repr

/-- Whether an outcome takes one of the two failure branches of the loop
(app.py:1377-1381, 1405-1409). -/
def isFailureOutcome : CreateOutcome → Bool
  | CreateOutcome.ok _ _ => false
  | CreateOutcome.err _ => true
  | CreateOutcome.exn _ => true

/-- The recorded error string `f"Order {order_number}: {message}"`
(app.py:1379-1381, 1407-1408). -/
def failureMsg (o : Order) : CreateOutcome → String
  | CreateOutcome.ok _ _ => ""
  | CreateOutcome.err m => "Order " ++ o.orderNumber ++ ": " ++ m
  | CreateOutcome.exn m => "Order " ++ o.orderNumber ++ ": " ++ m

/-- One iteration of the bulk-create loop (app.py:1372-1409): a failure
increments `failed` and appends the error; a success increments
`successful` and, when series, number and order number are all non-empty,
replaces the mapping row (delete then insert). -/
def bulkStep (uid : Nat) (outcome : Order → CreateOutcome) (st : BulkState)
    (o : Order) : BulkState :=
  match outcome o with
  | CreateOutcome.exn m =>
      { st with failed := st.failed + 1,
                errors := st.errors ++ [failureMsg o (CreateOutcome.exn m)] }
  | CreateOutcome.err m =>
      { st with failed := st.failed + 1,
                errors := st.errors ++ [failureMsg o (CreateOutcome.err m)] }
  | CreateOutcome.ok series number =>
      { st with successful := st.successful + 1,
                store :=
                  if series != "" && number != "" && o.orderNumber != "" then
                    saveInvoiceMapping uid o.orderNumber series number st.store
                  else st.store }

/-- The whole bulk-create loop over `orders_to_process`
(app.py:1366-1409). -/
def bulkProcess (uid : Nat) (outcome : Order → CreateOutcome)
    (orders : List Order) (store : List MappingRow) : BulkState :=
  orders.foldl (bulkStep uid outcome)
    { successful := 0, failed := 0, errors := [], store := store }

/-- The summary record returned by bulk-create (app.py:1411-1417). -/
structure BulkSummary where
  success : Bool
  total : Nat
  successful : Nat
  failed : Nat
  errors : List String
deriving DecidableEq, Repr

/-- Build the returned summary: `total` is the processed count and the
error list is cut to its first 10 entries (app.py:1411-1417). -/
def bulkSummary (uid : Nat) (outcome : Order → CreateOutcome)
    (orders : List Order) (store : List MappingRow) : BulkSummary :=
  let st := bulkProcess uid outcome orders store
  { success := true, total := orders.length, successful := st.successful,
    failed := st.failed, errors := st.errors.take 10 }

/-- The authenticated-user fields consulted by the credential checks
(user_manager.py:7-24, app.py:55-72); credential strings use `""` for a
missing value (Python falsiness of `None`/`''`). -/
structure AppUser where
  isAuthenticated : Bool
  role : String
  trendyolApiKey : String
  trendyolApiSecret : String
  trendyolSupplierId : String
  smartbillApiToken : String
  smartbillEmail : String
  smartbillCompanyCif : String
  smartbillGestiune : String
deriving DecidableEq, Repr

/-- `User.is_admin` (user_manager.py:22-23). -/
def isAdminUser (u : AppUser) : Bool :=
  u.role == "admin"

/-- `check_credentials` (app.py:55-62): unauthenticated and admin accounts
always fail; otherwise all three marketplace credentials must be set. -/
def checkCredentials (u : AppUser) : Bool :=
  if !u.isAuthenticated then false
  else if isAdminUser u then false
  else u.trendyolApiKey != "" && u.trendyolApiSecret != "" &&
       u.trendyolSupplierId != ""

/-- `check_smartbill_credentials` (app.py:65-72). -/
def checkSmartbillCredentials (u : AppUser) : Bool :=
  if !u.isAuthenticated then false
  else if isAdminUser u then false
  else u.smartbillApiToken != "" && u.smartbillEmail != "" &&
       u.smartbillCompanyCif != ""

/-- Endpoint responses: a payload or `{'error': msg}, status`. -/
inductive ApiResp (α : Type) where
  | ok (v : α)
  | err (msg : String) (status : Nat)
deriving DecidableEq, Repr

/-- The `bulk_send_to_smartbill` endpoint (app.py:1290-1420): credential
guards, gather of the user's mapped order ids, the fetched-order gather
(whose paginated fetch is supplied here as its already-joined
`Except` outcome, app.py:1328-1352), eligibility filtering, truncation to
`order_count`, the per-order loop and the summary. -/
def bulkSendToSmartbill (u : AppUser) (uid : Nat) (store : List MappingRow)
    (gather : Except ErrorResult (List Order))
    (outcome : Order → CreateOutcome) (orderCount : Nat) :
    ApiResp BulkSummary :=
  if !checkCredentials u then
    ApiResp.err "Trendyol credentials not configured." 401
  else if !checkSmartbillCredentials u then
    ApiResp.err "SmartBill credentials not configured." 401
  else
    match gather with
    | Except.error e =>
        ApiResp.err ("Failed to fetch orders: " ++ e.error) 500
    | Except.ok fetched =>
        ApiResp.ok (bulkSummary uid outcome
          (ordersToProcess (mappedOrderIds uid store) fetched orderCount) store)

/-- The credential guard of the `bulk_upload_to_trendyol` endpoint
(app.py:1430-1437); the body past the guard (gather, match, download,
upload) is abstracted as the continuation `rest`, which the claims here do
not inspect. -/
def bulkUploadToTrendyol (u : AppUser) (rest : Unit → ApiResp BulkSummary) :
    ApiResp BulkSummary :=
  if !checkCredentials u then
    ApiResp.err "Trendyol credentials not configured." 401
  else if !checkSmartbillCredentials u then
    ApiResp.err "SmartBill credentials not configured." 401
  else rest ()

/-- Outcome oracle for `smartbill_service.create_invoice` inside the
single-order create endpoint (app.py:834-843): an error dict or a result
whose `series`/`number` fields are read back with default `''`. -/
inductive SbResult where
  | ok (series number : String)
  | err (msg : String)
deriving DecidableEq, Repr

/-- The `create_smartbill_invoice` endpoint's mapping-store logic
(app.py:805-867): reject an empty order number, answer 409 when a mapping
for `(user, order)` already exists, otherwise call the invoicing client
and insert a mapping row on success.  Returns the response paired with the
resulting store. -/
def createSmartbillInvoice (uid : Nat) (oid : String) (result : SbResult)
    (store : List MappingRow) : ApiResp (String × String) × List MappingRow :=
  if oid = "" then
    (ApiResp.err "Order number is required" 400, store)
  else
    match lookupMapping uid oid store with
    | some _ =>
        (ApiResp.err ("Invoice already exists for order " ++ oid) 409, store)
    | none =>
        match result with
        | SbResult.err m => (ApiResp.err m 500, store)
        | SbResult.ok series number =>
            (ApiResp.ok (series, number), insertMapping uid oid series number store)

/-- The uniqueness invariant of the mapping store: at most one row per
`(user_id, order_id)` (user_manager.py:61 `UNIQUE(user_id, order_id)`). -/
def MappingKeyUnique (store : List MappingRow) : Prop :=
  store.Pairwise (fun a b => ¬(a.userId = b.userId ∧ a.orderId = b.orderId))

/-- First-match lookup in an association list, mirroring the semantics of
the `if`/`elif` override chain. -/
def lookupFirst (k : String) : List (String × String) → Option String
  | [] => none
  | (key, v) :: rest => if k == key then some v else lookupFirst k rest

/-- Evaluate an `if`/`elif` override chain over an entry list, ending in
the merchant-SKU / placeholder fallback of app.py:1070-1072. -/
def overrideChain (line : OrderLine) : List (String × String) → String
  | [] => if line.merchantSku == "merchantSku" then line.sku
          else line.merchantSku
  | (key, v) :: rest => if line.sku == key then v else overrideChain line rest

/-- The literal SKU-override table of app.py:1073-1162, in source order
(the `elif` chain), duplicate keys included. -/
def skuOverrides : List (String × String) :=
  [("TYBE5ZISTJCR2Q5O74", "6290360593661"),
   ("TYBZTU26IL7M50OR26", "6290360599168"),
   ("TYBOOEG4YXK6HCXL86", "6291108735411"),
   ("PMPE7SEBBAN4ZPP211", "6290360599120"),
   ("TYBO6S9ZD26OA6NI63", "6290360598888"),
   ("TYB46RAYZ8NJKLLI50", "6290362345749"),
   ("776291108737194", "6291108737194"),
   ("PMPGPLCV5FBWOBKL66", "6290306595771"),
   ("TYB50R0MDLQTMSGA13", "6290362345749"),
   ("TYBMF5JUXY6R2ILI26", "6290362345749"),
   ("TYBG2PCBBTTXM2Z558", "6298043160865"),
   ("TYBOOEG4YXK6HCXL86", "6291108735411"),
   ("TYBUZOW2O04GCF0H47", "6290306595771"),
   ("DH-6290362340362", "6290362340362"),
   ("DH-6291107456485", "6291107456485"),
   ("DH-6290362345749", "6290362345749"),
   ("TYB50R0MDLQTMSGA13", "6290362345749"),
   ("344259RYI9KM4NWZ", "6290362340362"),
   ("TYBDVN19MS50NE4L05", "6291108737194"),
   ("PMPNUJML9VHN1WSL78", "6290362346548"),
   ("TYBY6WXHAX51S4K146", "6290362346548"),
   ("TYBO6S9ZD26OA6NI63", "6290360598888"),
   ("TYBZTU26IL7M50OR26", "6290360599168"),
   ("DH-6295199802700", "6295199802700"),
   ("DH-6294015181272", "6294015181272"),
   ("DH-6291108738504", "6291108738504"),
   ("DH-6290360598918", "6290360598918"),
   ("899365NXPSOQXOR5", "6290360599113"),
   ("344259RYI9KM4NWZ", "6290362340362"),
   ("DH-6290362340638", "6290362340638"),
   ("TYBC9FYOAYWMH5V824", "6298043160865"),
   ("2992155993566", "6290362349679"),
   ("54512289WHIP1", "6290362349648"),
   ("PMPX7MWI02JJOZ5O03", "6290360595764"),
   ("PMPCHUVPFHKM851K80", "6290362340638"),
   ("4064666318097", "1100011127"),
   ("TYBVLGRVD5MIVGV049", "6290360598901"),
   ("TYB1LV9CP4QBMKDL08", "6298043160964"),
   ("PMPIHBSEOOZSJJB821", "6290362344506"),
   ("PMP9V4UX54QSMIVM71", "6290362346531"),
   ("TYBNTUAF3RG4369H97", "6291108737194"),
   ("TYBNTUAF3RG4369H97", "6291108730515"),
   ("TYBN0O65AFCYAWO087", "6298043160964"),
   ("TYB61GZIOG8D9CHN23", "6298043160964"),
   ("TYC14OQK3N169892658027912", "6291108738290")]

/-- The product-code resolution of app.py:1068-1162: `codul` starts as the
merchant SKU, falls back to the raw SKU when the merchant SKU literally
equals `"merchantSku"`, and the first matching branch of the `if`/`elif`
chain on the raw SKU then overrides it. -/
def resolveProductCode (line : OrderLine) : String :=
  if line.sku == "TYBE5ZISTJCR2Q5O74" then "6290360593661"
  else if line.sku == "TYBZTU26IL7M50OR26" then "6290360599168"
  else if line.sku == "TYBOOEG4YXK6HCXL86" then "6291108735411"
  else if line.sku == "PMPE7SEBBAN4ZPP211" then "6290360599120"
  else if line.sku == "TYBO6S9ZD26OA6NI63" then "6290360598888"
  else if line.sku == "TYB46RAYZ8NJKLLI50" then "6290362345749"
  else if line.sku == "776291108737194" then "6291108737194"
  else if line.sku == "PMPGPLCV5FBWOBKL66" then "6290306595771"
  else if line.sku == "TYB50R0MDLQTMSGA13" then "6290362345749"
  else if line.sku == "TYBMF5JUXY6R2ILI26" then "6290362345749"
  else if line.sku == "TYBG2PCBBTTXM2Z558" then "6298043160865"
  else if line.sku == "TYBOOEG4YXK6HCXL86" then "6291108735411"
  else if line.sku == "TYBUZOW2O04GCF0H47" then "6290306595771"
  else if line.sku == "DH-6290362340362" then "6290362340362"
  else if line.sku == "DH-6291107456485" then "6291107456485"
  else if line.sku == "DH-6290362345749" then "6290362345749"
  else if line.sku == "TYB50R0MDLQTMSGA13" then "6290362345749"
  else if line.sku == "344259RYI9KM4NWZ" then "6290362340362"
  else if line.sku == "TYBDVN19MS50NE4L05" then "6291108737194"
  else if line.sku == "PMPNUJML9VHN1WSL78" then "6290362346548"
  else if line.sku == "TYBY6WXHAX51S4K146" then "6290362346548"
  else if line.sku == "TYBO6S9ZD26OA6NI63" then "6290360598888"
  else if line.sku == "TYBZTU26IL7M50OR26" then "6290360599168"
  else if line.sku == "DH-6295199802700" then "6295199802700"
  else if line.sku == "DH-6294015181272" then "6294015181272"
  else if line.sku == "DH-6291108738504" then "6291108738504"
  else if line.sku == "DH-6290360598918" then "6290360598918"
  else if line.sku == "899365NXPSOQXOR5" then "6290360599113"
  else if line.sku == "344259RYI9KM4NWZ" then "6290362340362"
  else if line.sku == "DH-6290362340638" then "6290362340638"
  else if line.sku == "TYBC9FYOAYWMH5V824" then "6298043160865"
  else if line.sku == "2992155993566" then "6290362349679"
  else if line.sku == "54512289WHIP1" then "6290362349648"
  else if line.sku == "PMPX7MWI02JJOZ5O03" then "6290360595764"
  else if line.sku == "PMPCHUVPFHKM851K80" then "6290362340638"
  else if line.sku == "4064666318097" then "1100011127"
  else if line.sku == "TYBVLGRVD5MIVGV049" then "6290360598901"
  else if line.sku == "TYB1LV9CP4QBMKDL08" then "6298043160964"
  else if line.sku == "PMPIHBSEOOZSJJB821" then "6290362344506"
  else if line.sku == "PMP9V4UX54QSMIVM71" then "6290362346531"
  else if line.sku == "TYBNTUAF3RG4369H97" then "6291108737194"
  else if line.sku == "TYBNTUAF3RG4369H97" then "6291108730515"
  else if line.sku == "TYBN0O65AFCYAWO087" then "6298043160964"
  else if line.sku == "TYB61GZIOG8D9CHN23" then "6298043160964"
  else if line.sku == "TYC14OQK3N169892658027912" then "6291108738290"
  else if line.merchantSku == "merchantSku" then line.sku
  else line.merchantSku

/-- Python `a or b` on strings: `a` when non-empty, else `b`
(app.py:1195-1199, 1270-1273). -/
def orElseStr (a b : String) : String :=
  if a = "" then b else a

/-- Replace-all of the literal `"-OSS"` by `""` on a character list,
mirroring Python `str.replace`: scan left to right, remove each
non-overlapping occurrence, never rescanning the produced text
(app.py:1246). -/
def stripOSSList : List Char → List Char
  | [] => []
  | '-' :: 'O' :: 'S' :: 'S' :: rest => stripOSSList rest
  | c :: rest => c :: stripOSSList rest

/-- `series_name.replace('-OSS', '')` (app.py:1246). -/
def stripOSS (s : String) : String :=
  String.mk (stripOSSList s.toList)

/-- The OSS series-suffix rule (app.py:1244-1247): strip every `"-OSS"`
occurrence, then append `"-OSS"`. -/
def ossSeriesName (s : String) : String :=
  stripOSS s ++ "-OSS"

/-- Whether `"-OSS"` occurs in `s`. -/
def hasOSS (s : String) : Bool :=
  subListOf "-OSS".toList s.toList

/-- One invoice product line of the payload (app.py:1169-1189). -/
structure ProductData where
  code : String
  name : String
  productDescription : String
  measuringUnitName : String
  currency : String
  quantity : Nat
  price : Int
  isTaxIncluded : Bool
  taxPercentage : Int
  saveToDb : Bool
  warehouseName : String
deriving DecidableEq, Repr

/-- The `client` object of the payload (app.py:1266-1276). -/
structure ClientData where
  name : String
  vatCode : String
  isTaxPayer : Bool
  address : String
  city : String
  county : String
  country : String
  email : String
  saveToDb : Bool
deriving DecidableEq, Repr

/-- The invoice-creation payload built by
`generate_invoice_data_from_order` (app.py:1262-1285). -/
structure InvoiceData where
  companyVatCode : String
  useIntraCif : Bool
  seriesName : String
  client : ClientData
  issueDate : String
  currency : String
  useStock : Bool
  products : List ProductData
  orderNumber : String
deriving DecidableEq, Repr

/-- One order line mapped to one invoice product (app.py:1068-1189):
quantity, price and VAT rate copied, the resolved product code, a
description embedding the order number, and the order currency with
default `'RON'`. -/
def productOfLine (order : Order) (warehouseName : String) (line : OrderLine) :
    ProductData :=
  { code := resolveProductCode line
    name := line.productName
    productDescription := "Numar comanda Trendyol:" ++ order.orderNumber
    measuringUnitName := "buc"
    currency := order.currencyCode.getD "RON"
    quantity := line.quantity
    price := line.price
    isTaxIncluded := true
    taxPercentage := line.vatRate
    saveToDb := false
    warehouseName := warehouseName }

/-- `generate_invoice_data_from_order` (app.py:1050-1287).  The two
external calls are supplied as oracles: `seriesFetched` is the name of the
first invoicing series when the series fetch succeeded with a non-empty
list (app.py:1233-1242), and `postal` is the `(city, county)` pair parsed
from the postal-code directory when that best-effort lookup succeeded
(app.py:1202-1225).  `today` is the issue date (app.py:1250). -/
def generateInvoiceData (order : Order) (user : AppUser) (useGestiune : Bool)
    (seriesFetched : Option String) (postal : Option (String × String))
    (today : String) : InvoiceData :=
  let warehouseName := if useGestiune then user.smartbillGestiune else ""
  let folosesteStock := useGestiune
  let products := order.lines.map (productOfLine order warehouseName)
  let invAddr := order.invoiceAddress
  let shipAddr := order.shipmentAddress
  let city0 := orElseStr invAddr.city shipAddr.city
  let county0 := orElseStr invAddr.district shipAddr.district
  let postalCode := orElseStr invAddr.postalCode shipAddr.postalCode
  let city := if postalCode ≠ "" then
      match postal with
      | some (lookupCity, _) => if city0 = "" then lookupCity else city0
      | none => city0
    else city0
  let county := if postalCode ≠ "" then
      match postal with
      | some (_, lookupCounty) => lookupCounty
      | none => county0
    else county0
  let companyVatCode := orElseStr user.smartbillCompanyCif "YOUR_COMPANY_VAT_CODE"
  let orderCurrency := order.currencyCode.getD "RON"
  let isOss := orderCurrency ≠ "RON"
  let seriesName0 := seriesFetched.getD "SERIE_FACTURA"
  let seriesName := if isOss then ossSeriesName seriesName0 else seriesName0
  let customerName :=
    orElseStr (order.customerFirstName ++ " " ++ order.customerLastName).trim "N/A"
  { companyVatCode := companyVatCode
    useIntraCif := isOss
    seriesName := seriesName
    client :=
      { name := customerName
        vatCode := "-"
        isTaxPayer := false
        address := orElseStr invAddr.address1 shipAddr.address1
        city := city
        county := county
        country := orElseStr (orElseStr invAddr.countryCode shipAddr.countryCode) "RO"
        email := order.customerEmail
        saveToDb := true }
    issueDate := today
    currency := order.currencyCode.getD ""
    useStock := folosesteStock
    products := products
    orderNumber := order.orderNumber }

/-- De-duplication keeping the first occurrence of each order key, as the
accumulation loop performs it. -/
def dedupByKey (l : List Order) : List Order :=
  (l.foldl addUnseen ([], [])).1

/-- Specification-side pipeline for a two-status fetch (spec.md section 4.1
and section 8): fetch every page of status `A` and of status `B`
separately, merge, de-duplicate by order identifier, apply the same fixed
SKU filter, sort ascending by order date, then window. -/
def specMultiStatusFetch (server : String → List PageResp) (A B : String)
    (page size : Nat) (sku : String) : PageResult :=
  let merged := dedupByKey (collectPages (server A) ++ collectPages (server B))
  let filtered := if sku ≠ "" then skuFilterOrders sku merged else merged
  pageRecord (sortByDate filtered) page size

/-- Concrete address used by the concrete evaluation examples. -/
def sampleAddr : Address :=
  { address1 := "Str. Unirii 1", city := "Bucuresti", district := "S1",
    postalCode := "", countryCode := "RO" }

/-- Concrete base order used by the concrete evaluation examples. -/
def baseOrder : Order :=
  { id := some 1, orderNumber := "1", orderDate := some 100, lines := [],
    currencyCode := some "RON", invoiceLink := "", customerFirstName := "Ana",
    customerLastName := "Pop", customerEmail := "ana@example.com",
    identityNumber := "", invoiceAddress := sampleAddr,
    shipmentAddress := sampleAddr }

/-- Concrete order of status-A pages for concrete examples. -/
def ordA : Order :=
  { baseOrder with id := some 11, orderNumber := "A1", orderDate := some 5 }

/-- Concrete order of status-B pages for concrete examples. -/
def ordB : Order :=
  { baseOrder with id := some 12, orderNumber := "B1", orderDate := some 3 }

/-- Concrete order already present in the mapping table. -/
def ordMapped : Order :=
  { baseOrder with id := some 13, orderNumber := "100" }

/-- Concrete order already carrying a provider-side invoice link. -/
def ordLinked : Order :=
  { baseOrder with id := some 14, orderNumber := "200",
                   invoiceLink := "https://x/invoice.pdf" }

/-- Concrete eligible order. -/
def ordFree : Order :=
  { baseOrder with id := some 15, orderNumber := "300" }

/-- Concrete line matching the SKU filter "abc". -/
def lineX : OrderLine :=
  { sku := "S-X", merchantSku := "ABC-1", barcode := "BR1",
    productName := "PX", quantity := 2, price := 30, vatRate := 19 }

/-- Concrete line not matching the SKU filter "abc". -/
def lineY : OrderLine :=
  { sku := "S-Y", merchantSku := "ZZZ", barcode := "QQQ",
    productName := "PY", quantity := 1, price := 10, vatRate := 19 }

/-- Concrete order with a matching line. -/
def ordSku : Order :=
  { baseOrder with id := some 21, orderNumber := "SK1", lines := [lineX] }

/-- Concrete order with no matching line. -/
def ordNoSku : Order :=
  { baseOrder with id := some 22, orderNumber := "SK2", lines := [lineY] }

/-- Concrete order numbered `num` for the bulk-loop scenario. -/
def scOrder (num : String) : Order :=
  { baseOrder with orderNumber := num, id := none }

/-- The five orders of the end-to-end bulk scenario. -/
def scOrders : List Order :=
  [scOrder "1", scOrder "2", scOrder "3", scOrder "4", scOrder "5"]

/-- Scenario outcome: the invoicing create fails with a provider 400 for
order 3 and succeeds for every other order. -/
def scOutcome (o : Order) : CreateOutcome :=
  if o.orderNumber = "3" then
    CreateOutcome.err "Bad request - invalid invoice data (400)"
  else CreateOutcome.ok "FACT" ("10" ++ o.orderNumber)

/-- Concrete admin account with every credential configured. -/
def adminUser : AppUser :=
  { isAuthenticated := true, role := "admin", trendyolApiKey := "key",
    trendyolApiSecret := "secret", trendyolSupplierId := "123",
    smartbillApiToken := "token", smartbillEmail := "x@y.z",
    smartbillCompanyCif := "RO1", smartbillGestiune := "Depozit" }

/-- Concrete non-admin account with every credential configured. -/
def normalUser : AppUser :=
  { adminUser with role := "user" }

/-- Concrete server for the two-status witness. -/
def twoStatusServer : String → List PageResp :=
  fun st => if st = "Created" then [PageResp.ok [ordA]] else [PageResp.ok [ordB]]

/-- Concrete cross-border order (currency EUR). -/
def euroOrder : Order :=
  { baseOrder with id := some 31, orderNumber := "E1",
                   currencyCode := some "EUR" }

lemma collectPages_pagesOf_aux :
    ∀ (n : Nat) (L : List Order), L.length ≤ n → collectPages (pagesOf L) = L := by
  intro n
  induction n with
  | zero =>
    intro L hL
    have h0 : L = [] := List.eq_nil_of_length_eq_zero (Nat.le_zero.mp hL)
    subst h0
    simp [pagesOf, collectPages]
  | succ n ih =>
    intro L hL
    cases L with
    | nil => simp [pagesOf, collectPages]
    | cons a rest =>
      rw [pagesOf, collectPages]
      by_cases h : (List.take 200 (a :: rest)).length < 200
      · have hlen : (a :: rest).length ≤ 200 := by
          simp only [List.length_take] at h
          omega
        rw [if_pos h, List.take_of_length_le hlen]
      · have hdrop : (List.drop 200 (a :: rest)).length ≤ n := by
          simp only [List.length_drop]
          simp only [List.length_cons] at hL ⊢
          omega
        rw [if_neg h, ih _ hdrop, List.take_append_drop]

/-- A fetch loop over a perfectly paginating server collects exactly the
server's whole order list. -/
lemma collectPages_pagesOf (L : List Order) : collectPages (pagesOf L) = L :=
  collectPages_pagesOf_aux L.length L (Nat.le_refl _)

/-- On a page list whose first page succeeded, the SKU-path loop succeeds
with exactly what the shared page loop collects. -/
lemma fetchAllPagesSku_ok_head (c : List Order) (ps : List PageResp) :
    fetchAllPagesSku (PageResp.ok c :: ps)
      = Except.ok (collectPages (PageResp.ok c :: ps)) := by
  rw [fetchAllPagesSku, collectPages]

lemma fetchAllPagesSku_pagesOf (L : List Order) :
    fetchAllPagesSku (pagesOf L) = Except.ok L := by
  cases L with
  | nil => simp [pagesOf, fetchAllPagesSku]
  | cons a rest =>
    rw [pagesOf, fetchAllPagesSku_ok_head, ← pagesOf]
    rw [collectPages_pagesOf]

lemma gatherStatuses_pair (server : String → List PageResp) (A B : String) :
    (gatherStatuses server [A, B]).1
      = dedupByKey (collectPages (server A) ++ collectPages (server B)) := by
  simp [gatherStatuses, dedupByKey, List.foldl_append]

/-- C4: for every pair of statuses `A`, `B` and fixed other filters,
fetching orders with the comma-separated status string `"A,B"` yields the
same result as fetching status `A` and status `B` separately (all pages
each), merging, de-duplicating by order identifier (order id first, order
number as fallback), sorting ascending by order date, and applying the
requested page/size window to the merged de-duplicated set. -/
theorem multi_status_fetch_refines_separate_merge
    (server : String → List PageResp) (skuPages : List PageResp)
    (single : UpResp) (A B sku : String) (page size : Nat)
    (hA : stripStr A = A) (hB : stripStr B = B)
    (hsplit : splitComma (A ++ "," ++ B) = [A, B])
    (hne : A ++ "," ++ B ≠ "")
    (hcomma : strContainsChar (A ++ "," ++ B) ',' = true) :
    getOrders server skuPages single page size (A ++ "," ++ B) sku
      = Except.ok (specMultiStatusFetch server A B page size sku) := by
  unfold getOrders
  rw [if_pos (by exact ⟨hne, hcomma⟩)]
  rw [hsplit, List.map_cons, List.map_cons, List.map_nil, hA, hB]
  congr 1
  unfold getOrdersMulti specMultiStatusFetch
  rw [gatherStatuses_pair]

/-- Witness for C4 at the concrete statuses `"Created,Picking"` over a
concrete two-status server. -/
theorem multi_status_fetch_refines_separate_merge_witness :
    getOrders twoStatusServer [] (UpResp.netErr "x") 0 10
        ("Created" ++ "," ++ "Picking") ""
      = Except.ok (specMultiStatusFetch twoStatusServer "Created" "Picking" 0 10 "") :=
  multi_status_fetch_refines_separate_merge twoStatusServer [] (UpResp.netErr "x")
    "Created" "Picking" "" 0 10 (by decide) (by decide) (by decide) (by decide)
    (by decide)

/-- C5: the SKU-filtered fetch over a server holding `L` succeeds with the
windowed client-side filter of `L`: its content is a subset of the orders
the unfiltered fetch would return, every returned order has a line whose
merchant-SKU or barcode contains the filter case-insensitively, and the
page metadata reflects the filtered set — `totalElements` is the number of
matching orders, `totalPages` its ceiling division by `size`, and the
content the `[page*size, page*size+size)` window of the filtered list. -/
theorem sku_filtered_fetch_subset_and_metadata
    (L : List Order) (sku : String) (page size : Nat) (hsize : 0 < size) :
    getOrdersSku (pagesOf L) sku page size
      = Except.ok (pageRecord (L.filter (orderMatchesSku sku)) page size)
  ∧ (∀ o ∈ (pageRecord (L.filter (orderMatchesSku sku)) page size).content, o ∈ L)
  ∧ (∀ o ∈ (pageRecord (L.filter (orderMatchesSku sku)) page size).content,
       ∃ l ∈ o.lines, containsCI sku l.merchantSku = true ∨ containsCI sku l.barcode = true)
  ∧ (pageRecord (L.filter (orderMatchesSku sku)) page size).totalElements
      = (L.filter (orderMatchesSku sku)).length
  ∧ (pageRecord (L.filter (orderMatchesSku sku)) page size).totalPages
      = (L.filter (orderMatchesSku sku)).length ⌈/⌉ size
  ∧ (pageRecord (L.filter (orderMatchesSku sku)) page size).content
      = ((L.filter (orderMatchesSku sku)).drop (page * size)).take size := by
  refine ⟨?_, ?_, ?_, rfl, ?_, rfl⟩
  · unfold getOrdersSku
    rw [fetchAllPagesSku_pagesOf]
    rfl
  · intro o ho
    have hF : o ∈ L.filter (orderMatchesSku sku) :=
      List.mem_of_mem_drop (List.mem_of_mem_take ho)
    exact (List.mem_filter.mp hF).1
  · intro o ho
    have hF : o ∈ L.filter (orderMatchesSku sku) :=
      List.mem_of_mem_drop (List.mem_of_mem_take ho)
    have hm := (List.mem_filter.mp hF).2
    simpa only [orderMatchesSku, List.any_eq_true, lineMatchesSku,
      Bool.or_eq_true] using hm
  · show (if 0 < size then
        ((L.filter (orderMatchesSku sku)).length + size - 1) / size else 0) = _
    rw [if_pos hsize]
    rfl

/-- Witness for C5 at a concrete order list and the concrete filter
string "abc". -/
theorem sku_filtered_fetch_subset_and_metadata_witness :
    getOrdersSku (pagesOf [ordSku, ordNoSku]) "abc" 0 10
      = Except.ok (pageRecord ([ordSku, ordNoSku].filter (orderMatchesSku "abc")) 0 10)
  ∧ (∀ o ∈ (pageRecord ([ordSku, ordNoSku].filter (orderMatchesSku "abc")) 0 10).content,
       o ∈ [ordSku, ordNoSku])
  ∧ (∀ o ∈ (pageRecord ([ordSku, ordNoSku].filter (orderMatchesSku "abc")) 0 10).content,
       ∃ l ∈ o.lines, containsCI "abc" l.merchantSku = true ∨ containsCI "abc" l.barcode = true)
  ∧ (pageRecord ([ordSku, ordNoSku].filter (orderMatchesSku "abc")) 0 10).totalElements
      = ([ordSku, ordNoSku].filter (orderMatchesSku "abc")).length
  ∧ (pageRecord ([ordSku, ordNoSku].filter (orderMatchesSku "abc")) 0 10).totalPages
      = ([ordSku, ordNoSku].filter (orderMatchesSku "abc")).length ⌈/⌉ 10
  ∧ (pageRecord ([ordSku, ordNoSku].filter (orderMatchesSku "abc")) 0 10).content
      = (([ordSku, ordNoSku].filter (orderMatchesSku "abc")).drop (0 * 10)).take 10 :=
  sku_filtered_fetch_subset_and_metadata [ordSku, ordNoSku] "abc" 0 10 (by decide)

lemma collectPages_full_then (fullPages : List (List Order))
    (tail : List PageResp) (hfull : ∀ c ∈ fullPages, c.length = 200)
    (htail : collectPages tail = []) :
    collectPages (fullPages.map PageResp.ok ++ tail) = fullPages.flatten := by
  induction fullPages with
  | nil => simpa using htail
  | cons c fs ih =>
    have hc : c.length = 200 := hfull c (by simp)
    rw [List.map_cons, List.cons_append, collectPages,
        if_neg (by omega), ih (fun x hx => hfull x (by simp [hx])),
        List.flatten_cons]

/-- C8: in the SKU-filtered fetch-all-pages loop, a failure on page 0 is
fatal and propagated as a structured error record carrying the HTTP status
(500 for a transport error), whereas a failure on any later page silently
truncates — the pages already fetched are retained and the client-side
filtering and pagination proceed on them with no error reported. -/
theorem sku_fetch_first_page_fatal_later_pages_truncate :
    (∀ (s : Nat) (m : String) (rest : List PageResp) (sku : String) (page size : Nat),
       getOrdersSku (PageResp.httpErr s m :: rest) sku page size
         = Except.error { error := "Failed to fetch orders: " ++ m, status := s })
  ∧ (∀ (m : String) (rest : List PageResp) (sku : String) (page size : Nat),
       getOrdersSku (PageResp.netErr m :: rest) sku page size
         = Except.error { error := "Failed to fetch orders: " ++ m, status := 500 })
  ∧ (∀ (fullPages : List (List Order)) (s : Nat) (m : String)
       (rest : List PageResp) (sku : String) (page size : Nat),
       fullPages ≠ [] → (∀ c ∈ fullPages, c.length = 200) →
       getOrdersSku (fullPages.map PageResp.ok ++ PageResp.httpErr s m :: rest)
           sku page size
         = Except.ok (pageRecord (skuFilterOrders sku fullPages.flatten) page size)) := by
  refine ⟨fun s m rest sku page size => rfl, fun m rest sku page size => rfl, ?_⟩
  intro fullPages s m rest sku page size hne hfull
  match fullPages, hne with
  | c :: fs, _ =>
    have hc : c.length = 200 := hfull c (by simp)
    have htail : collectPages (PageResp.httpErr s m :: rest) = [] := rfl
    unfold getOrdersSku
    rw [List.map_cons, List.cons_append, fetchAllPagesSku, if_neg (by omega),
        collectPages_full_then fs (PageResp.httpErr s m :: rest)
          (fun x hx => hfull x (by simp [hx])) htail,
        ← List.flatten_cons]

/-- Witness for C8: one full page of 200 orders followed by a failing
second page is truncated to the first page's orders, filtered and
windowed, with no error. -/
theorem sku_fetch_first_page_fatal_later_pages_truncate_witness :
    getOrdersSku ([List.replicate 200 ordSku].map PageResp.ok
        ++ PageResp.httpErr 503 "boom" :: []) "abc" 0 10
      = Except.ok (pageRecord (skuFilterOrders "abc"
          [List.replicate 200 ordSku].flatten) 0 10) :=
  sku_fetch_first_page_fatal_later_pages_truncate.2.2
    [List.replicate 200 ordSku] 503 "boom" [] "abc" 0 10 (by simp)
    (fun c hc => by rw [List.mem_singleton] at hc; rw [hc, List.length_replicate])

/-- C9: the multi-status fetch path never returns a structured error
record: whenever the status string contains a comma the call returns a page
record, every upstream failure (including one on the first page of the
first status) only stops that status's page loop, and with every request
failing the call still returns a page record with empty content and
`totalElements = 0`. -/
theorem multi_status_path_never_errors :
    (∀ (server : String → List PageResp) (skuPages : List PageResp)
       (single : UpResp) (page size : Nat) (status sku : String),
       status ≠ "" → strContainsChar status ',' = true →
       getOrders server skuPages single page size status sku
         = Except.ok (getOrdersMulti server ((splitComma status).map stripStr)
             page size sku))
  ∧ (∀ (statuses : List String) (page size : Nat) (sku : String) (s : Nat)
       (m : String),
       getOrdersMulti (fun _ => [PageResp.httpErr s m]) statuses page size sku
         = { content := [], page := page, size := 0, totalElements := 0,
             totalPages := 0 }) := by
  constructor
  · intro server skuPages single page size status sku h1 h2
    unfold getOrders
    rw [if_pos ⟨h1, h2⟩]
  · intro statuses page size sku s m
    have hg : gatherStatuses (fun _ => [PageResp.httpErr s m]) statuses
        = ([], []) := by
      unfold gatherStatuses
      induction statuses with
      | nil => rfl
      | cons a rest ih =>
        rw [List.foldl_cons]
        exact ih
    have hfil : (if sku ≠ "" then skuFilterOrders sku [] else []) = [] := by
      by_cases h : sku ≠ "" <;> simp [h, skuFilterOrders]
    have hp : (if 0 < size then ((0 : Nat) + size - 1) / size else 0) = 0 := by
      by_cases hs : 0 < size
      · rw [if_pos hs]
        exact Nat.div_eq_of_lt (by omega)
      · rw [if_neg hs]
    unfold getOrdersMulti
    rw [hg]
    show pageRecord (sortByDate (if sku ≠ "" then skuFilterOrders sku [] else []))
        page size = _
    rw [hfil]
    show pageRecord [] page size = _
    unfold pageRecord paginateWindow
    simp only [List.drop_nil, List.take_nil, List.length_nil]
    rw [hp]

/-- Witness for C9 at the concrete comma status string "A,B". -/
theorem multi_status_path_never_errors_witness :
    getOrders twoStatusServer [] (UpResp.netErr "x") 0 10 "A,B" ""
      = Except.ok (getOrdersMulti twoStatusServer
          ((splitComma "A,B").map stripStr) 0 10 "") :=
  multi_status_path_never_errors.1 twoStatusServer [] (UpResp.netErr "x") 0 10
    "A,B" "" (by decide) (by decide)

lemma mem_ordersToProcess {existing : List String} {fetched : List Order}
    {count : Nat} {o : Order} (h : o ∈ ordersToProcess existing fetched count) :
    o ∈ fetched ∧ o.orderNumber ∉ existing ∧ o.invoiceLink = "" := by
  unfold ordersToProcess ordersWithoutInvoice at h
  have h3 := List.mem_filter.mp (List.mem_of_mem_take h)
  have h4 := h3.2
  unfold eligibleOrder at h4
  simp at h4
  exact ⟨h3.1, h4.1, h4.2⟩

/-- C1: the orders a bulk-create invocation actually processes are exactly
the first `order_count` (in fetched order) of the fetched orders that are
neither already in the user's mapping table nor already carrying a
provider-side invoice link; mapped or linked orders are never attempted,
so a re-run over a store holding a previous run's rows skips the
already-mapped orders; and the guarded endpoint runs its loop over exactly
that selection. -/
theorem bulk_create_processes_first_eligible
    (existing : List String) (fetched : List Order) (count : Nat)
    (uid : Nat) (store : List MappingRow) (u : AppUser)
    (outcome : Order → CreateOutcome) :
    ordersToProcess existing fetched count
      = (fetched.filter (eligibleOrder existing)).take count
  ∧ (∀ o ∈ ordersToProcess existing fetched count,
       o ∈ fetched ∧ o.orderNumber ∉ existing ∧ o.invoiceLink = "")
  ∧ (∀ o, o.orderNumber ∈ existing →
       o ∉ ordersToProcess existing fetched count)
  ∧ (∀ o, o.invoiceLink ≠ "" → o ∉ ordersToProcess existing fetched count)
  ∧ (ordersToProcess existing fetched count).length ≤ count
  ∧ (∀ (o : Order) (r : MappingRow), r ∈ store → r.userId = uid →
       r.orderId = o.orderNumber →
       o ∉ ordersToProcess (mappedOrderIds uid store) fetched count)
  ∧ (checkCredentials u = true → checkSmartbillCredentials u = true →
       bulkSendToSmartbill u uid store (Except.ok fetched) outcome count
         = ApiResp.ok (bulkSummary uid outcome
             (ordersToProcess (mappedOrderIds uid store) fetched count) store)) := by
  refine ⟨rfl, fun o h => mem_ordersToProcess h, ?_, ?_, ?_, ?_, ?_⟩
  · intro o hmem hin
    exact (mem_ordersToProcess hin).2.1 hmem
  · intro o hlink hin
    exact hlink (mem_ordersToProcess hin).2.2
  · exact le_trans (List.length_take_le _ _) (Nat.le_refl _)
  · intro o r hr hru hro hin
    refine (mem_ordersToProcess hin).2.1 ?_
    unfold mappedOrderIds
    refine List.mem_map.mpr ⟨r, ?_, hro⟩
    refine List.mem_filter.mpr ⟨hr, ?_⟩
    simp [hru]
  · intro h1 h2
    unfold bulkSendToSmartbill
    rw [h1, h2]
    rfl

/-- Witness for C1: with order number 100 already mapped and order 200
already linked, neither is processed, and the guarded endpoint over a
configured non-admin user returns the summary over exactly the eligible
selection. -/
theorem bulk_create_processes_first_eligible_witness :
    (ordMapped ∉ ordersToProcess ["100"] [ordMapped, ordLinked, ordFree] 5)
  ∧ (ordLinked ∉ ordersToProcess ["100"] [ordMapped, ordLinked, ordFree] 5)
  ∧ (bulkSendToSmartbill normalUser 1 [] (Except.ok [ordMapped, ordLinked, ordFree])
       (fun _ => CreateOutcome.ok "FACT" "7") 5
       = ApiResp.ok (bulkSummary 1 (fun _ => CreateOutcome.ok "FACT" "7")
           (ordersToProcess (mappedOrderIds 1 []) [ordMapped, ordLinked, ordFree] 5) [])) :=
  ⟨(bulk_create_processes_first_eligible ["100"] [ordMapped, ordLinked, ordFree]
      5 1 [] normalUser (fun _ => CreateOutcome.ok "FACT" "7")).2.2.1
      ordMapped (by decide),
   (bulk_create_processes_first_eligible ["100"] [ordMapped, ordLinked, ordFree]
      5 1 [] normalUser (fun _ => CreateOutcome.ok "FACT" "7")).2.2.2.1
      ordLinked (by decide),
   (bulk_create_processes_first_eligible (mappedOrderIds 1 [])
      [ordMapped, ordLinked, ordFree] 5 1 [] normalUser
      (fun _ => CreateOutcome.ok "FACT" "7")).2.2.2.2.2.2
      (by decide) (by decide)⟩

lemma mappingKeyUnique_delete (uid : Nat) (oid : String)
    {store : List MappingRow} (h : MappingKeyUnique store) :
    MappingKeyUnique (deleteMapping uid oid store) :=
  h.sublist (List.filter_sublist _)

lemma deleteMapping_no_key (uid : Nat) (oid : String) (store : List MappingRow) :
    ∀ r ∈ deleteMapping uid oid store, ¬(r.userId = uid ∧ r.orderId = oid) := by
  intro r hr
  have h2 := (List.mem_filter.mp hr).2
  simp at h2
  tauto

lemma mappingKeyUnique_insert {store : List MappingRow} (uid : Nat)
    (oid series number : String) (h : MappingKeyUnique store)
    (hno : ∀ r ∈ store, ¬(r.userId = uid ∧ r.orderId = oid)) :
    MappingKeyUnique (insertMapping uid oid series number store) := by
  unfold insertMapping MappingKeyUnique
  rw [List.pairwise_append]
  refine ⟨h, List.pairwise_singleton _ _, ?_⟩
  intro a ha b hb
  rw [List.mem_singleton] at hb
  subst hb
  exact fun hk => hno a ha ⟨hk.1, hk.2⟩

lemma mappingKeyUnique_save (uid : Nat) (oid series number : String)
    {store : List MappingRow} (h : MappingKeyUnique store) :
    MappingKeyUnique (saveInvoiceMapping uid oid series number store) :=
  mappingKeyUnique_insert uid oid series number
    (mappingKeyUnique_delete uid oid h) (deleteMapping_no_key uid oid store)

lemma mappingKeyUnique_bulkStep (uid : Nat) (outcome : Order → CreateOutcome)
    {st : BulkState} (h : MappingKeyUnique st.store) (o : Order) :
    MappingKeyUnique (bulkStep uid outcome st o).store := by
  unfold bulkStep
  split
  · exact h
  · exact h
  · dsimp only
    split
    · exact mappingKeyUnique_save _ _ _ _ h
    · exact h

lemma mappingKeyUnique_bulkLoop (uid : Nat) (outcome : Order → CreateOutcome)
    (orders : List Order) :
    ∀ st : BulkState, MappingKeyUnique st.store →
      MappingKeyUnique ((orders.foldl (bulkStep uid outcome) st).store) := by
  induction orders with
  | nil => exact fun st h => h
  | cons o os ih =>
    intro st h
    rw [List.foldl_cons]
    exact ih _ (mappingKeyUnique_bulkStep uid outcome h o)

/-- C2: every embedded mapping-store write preserves the at-most-one-row
invariant per `(user, order-number)`: the bulk-create success path replaces
(deletes, then inserts — the deletion removes every row with that key), the
single-order create endpoint inserts only after its duplicate check, and a
whole bulk-create loop run keeps the invariant, so no two successful
invoices are ever recorded for the same `(user, order-number)`. -/
theorem mapping_store_at_most_one_row
    (uid : Nat) (oid series number : String) (result : SbResult)
    (outcome : Order → CreateOutcome) (orders : List Order)
    (store : List MappingRow) (h : MappingKeyUnique store) :
    MappingKeyUnique (saveInvoiceMapping uid oid series number store)
  ∧ MappingKeyUnique (createSmartbillInvoice uid oid result store).2
  ∧ MappingKeyUnique ((bulkProcess uid outcome orders store).store)
  ∧ (∀ r ∈ deleteMapping uid oid store, ¬(r.userId = uid ∧ r.orderId = oid)) := by
  refine ⟨mappingKeyUnique_save uid oid series number h, ?_,
    mappingKeyUnique_bulkLoop uid outcome orders _ h,
    deleteMapping_no_key uid oid store⟩
  unfold createSmartbillInvoice
  split
  · exact h
  · split
    · exact h
    case _ heq =>
      cases result with
      | err m => exact h
      | ok s n =>
        refine mappingKeyUnique_insert uid oid s n h ?_
        intro r hr hk
        have := List.find?_eq_none.mp heq r hr
        simp at this
        tauto

/-- Witness for C2 over a concrete one-row store. -/
theorem mapping_store_at_most_one_row_witness :
    MappingKeyUnique (saveInvoiceMapping 1 "100" "FACT" "9"
      [{ userId := 1, orderId := "100", invoiceSeries := "FACT",
         invoiceNumber := "1" }])
  ∧ MappingKeyUnique (createSmartbillInvoice 1 "100" (SbResult.ok "FACT" "2")
      [{ userId := 1, orderId := "100", invoiceSeries := "FACT",
         invoiceNumber := "1" }]).2
  ∧ MappingKeyUnique ((bulkProcess 1 scOutcome scOrders
      [{ userId := 1, orderId := "100", invoiceSeries := "FACT",
         invoiceNumber := "1" }]).store)
  ∧ (∀ r ∈ deleteMapping 1 "100"
       [{ userId := 1, orderId := "100", invoiceSeries := "FACT",
          invoiceNumber := "1" }],
       ¬(r.userId = 1 ∧ r.orderId = "100")) :=
  mapping_store_at_most_one_row 1 "100" "FACT" "9" (SbResult.ok "FACT" "2")
    scOutcome scOrders
    [{ userId := 1, orderId := "100", invoiceSeries := "FACT",
       invoiceNumber := "1" }] (List.pairwise_singleton _ _)

lemma bulkLoop_counts (uid : Nat) (outcome : Order → CreateOutcome)
    (orders : List Order) :
    ∀ st : BulkState,
      (orders.foldl (bulkStep uid outcome) st).successful
        + (orders.foldl (bulkStep uid outcome) st).failed
        = st.successful + st.failed + orders.length := by
  induction orders with
  | nil => intro st; simp
  | cons o os ih =>
    intro st
    rw [List.foldl_cons, ih]
    unfold bulkStep
    split <;> dsimp only <;> simp <;> omega

lemma bulkLoop_errors (uid : Nat) (outcome : Order → CreateOutcome)
    (orders : List Order) :
    ∀ st : BulkState,
      (orders.foldl (bulkStep uid outcome) st).errors
        = st.errors ++ (orders.filter (fun o => isFailureOutcome (outcome o))).map
            (fun o => failureMsg o (outcome o)) := by
  induction orders with
  | nil => intro st; simp
  | cons o os ih =>
    intro st
    rw [List.foldl_cons, ih]
    cases hoc : outcome o <;>
      unfold bulkStep <;> rw [hoc] <;>
      simp [List.filter_cons, hoc, isFailureOutcome, failureMsg]

/-- C3: one order's failure never aborts the bulk-create batch — the
summary always reports `total` equal to the number of processed orders,
`successful + failed = total` (each processed order counted exactly once),
an error list equal to the first 10 failure messages in processing order,
each error carrying the failing order's number; and on the concrete
five-order scenario in which the invoicing create fails for order 3 with a
provider 400, the summary is `successful = 4`, `failed = 1` with that one
error referencing order 3. -/
theorem bulk_create_partial_failure_bounded_errors
    (uid : Nat) (outcome : Order → CreateOutcome) (orders : List Order)
    (store : List MappingRow) :
    (bulkSummary uid outcome orders store).total = orders.length
  ∧ (bulkSummary uid outcome orders store).successful
      + (bulkSummary uid outcome orders store).failed = orders.length
  ∧ (bulkSummary uid outcome orders store).errors
      = ((orders.filter (fun o => isFailureOutcome (outcome o))).map
          (fun o => failureMsg o (outcome o))).take 10
  ∧ (bulkSummary uid outcome orders store).errors.length ≤ 10
  ∧ (∀ e ∈ (bulkSummary uid outcome orders store).errors,
       ∃ o ∈ orders, isFailureOutcome (outcome o) = true
         ∧ e = failureMsg o (outcome o))
  ∧ (bulkSummary 1 scOutcome scOrders []).successful = 4
  ∧ (bulkSummary 1 scOutcome scOrders []).failed = 1
  ∧ (bulkSummary 1 scOutcome scOrders []).errors
      = ["Order 3: Bad request - invalid invoice data (400)"] := by
  have herr : (bulkSummary uid outcome orders store).errors
      = ((orders.filter (fun o => isFailureOutcome (outcome o))).map
          (fun o => failureMsg o (outcome o))).take 10 := by
    show ((List.foldl (bulkStep uid outcome)
        { successful := 0, failed := 0, errors := [], store := store }
        orders).errors).take 10 = _
    rw [bulkLoop_errors]
    rfl
  refine ⟨rfl, ?_, herr, ?_, ?_, by decide, by decide, by decide⟩
  · show (List.foldl (bulkStep uid outcome)
        { successful := 0, failed := 0, errors := [], store := store }
        orders).successful + (List.foldl (bulkStep uid outcome)
        { successful := 0, failed := 0, errors := [], store := store }
        orders).failed = orders.length
    rw [bulkLoop_counts]
    simp
  · rw [herr]
    exact List.length_take_le 10 _
  · intro e he
    rw [herr] at he
    have he2 := List.mem_of_mem_take he
    obtain ⟨o, ho, hmsg⟩ := List.mem_map.mp he2
    have ho2 := List.mem_filter.mp ho
    exact ⟨o, ho2.1, ho2.2, hmsg.symm⟩

/-- Witness for C3 at the concrete five-order scenario. -/
theorem bulk_create_partial_failure_bounded_errors_witness :
    (bulkSummary 1 scOutcome scOrders []).total = scOrders.length
  ∧ (bulkSummary 1 scOutcome scOrders []).successful
      + (bulkSummary 1 scOutcome scOrders []).failed = scOrders.length :=
  ⟨(bulk_create_partial_failure_bounded_errors 1 scOutcome scOrders []).1,
   (bulk_create_partial_failure_bounded_errors 1 scOutcome scOrders []).2.1⟩

lemma checkCredentials_admin_false {u : AppUser} (h : isAdminUser u = true) :
    checkCredentials u = false := by
  unfold checkCredentials
  cases hu : u.isAuthenticated <;> simp [h, hu]

lemma checkSmartbillCredentials_admin_false {u : AppUser}
    (h : isAdminUser u = true) : checkSmartbillCredentials u = false := by
  unfold checkSmartbillCredentials
  cases hu : u.isAuthenticated <;> simp [h, hu]

/-- C10: for every admin account the credential checks return false no
matter which credentials are configured, so the guarded bulk-create and
bulk-upload endpoints answer an admin with the 401
"credentials not configured" error independently of every oracle — no
provider call is ever consulted. -/
theorem admin_credential_checks_always_401
    : (∀ u : AppUser, u.isAuthenticated = true → isAdminUser u = true →
         checkCredentials u = false ∧ checkSmartbillCredentials u = false)
  ∧ (∀ (u : AppUser) (uid : Nat) (store : List MappingRow)
       (gather : Except ErrorResult (List Order))
       (outcome : Order → CreateOutcome) (count : Nat),
       isAdminUser u = true →
       bulkSendToSmartbill u uid store gather outcome count
         = ApiResp.err "Trendyol credentials not configured." 401)
  ∧ (∀ (u : AppUser) (rest : Unit → ApiResp BulkSummary),
       isAdminUser u = true →
       bulkUploadToTrendyol u rest
         = ApiResp.err "Trendyol credentials not configured." 401) := by
  refine ⟨?_, ?_, ?_⟩
  · intro u _ h
    exact ⟨checkCredentials_admin_false h, checkSmartbillCredentials_admin_false h⟩
  · intro u uid store gather outcome count h
    unfold bulkSendToSmartbill
    rw [checkCredentials_admin_false h]
    rfl
  · intro u rest h
    unfold bulkUploadToTrendyol
    rw [checkCredentials_admin_false h]
    rfl

/-- Witness for C10 at a concrete admin with every credential configured. -/
theorem admin_credential_checks_always_401_witness :
    (checkCredentials adminUser = false
       ∧ checkSmartbillCredentials adminUser = false)
  ∧ bulkSendToSmartbill adminUser 1 [] (Except.ok [ordFree])
      (fun _ => CreateOutcome.ok "FACT" "5") 5
      = ApiResp.err "Trendyol credentials not configured." 401
  ∧ bulkUploadToTrendyol adminUser
      (fun _ => ApiResp.ok (bulkSummary 1 (fun _ => CreateOutcome.ok "FACT" "5") [] []))
      = ApiResp.err "Trendyol credentials not configured." 401 :=
  ⟨admin_credential_checks_always_401.1 adminUser (by decide) (by decide),
   admin_credential_checks_always_401.2.1 adminUser 1 [] (Except.ok [ordFree])
     (fun _ => CreateOutcome.ok "FACT" "5") 5 (by decide),
   admin_credential_checks_always_401.2.2 adminUser
     (fun _ => ApiResp.ok (bulkSummary 1 (fun _ => CreateOutcome.ok "FACT" "5") [] []))
     (by decide)⟩

set_option maxHeartbeats 1000000 in
lemma resolveProductCode_eq_overrideChain (line : OrderLine) :
    resolveProductCode line = overrideChain line skuOverrides := rfl

lemma overrideChain_eq_lookupFirst (line : OrderLine) :
    ∀ table : List (String × String),
      overrideChain line table
        = match lookupFirst line.sku table with
          | some c => c
          | none => if line.merchantSku == "merchantSku" then line.sku
                    else line.merchantSku := by
  intro table
  induction table with
  | nil => rfl
  | cons kv rest ih =>
    match kv with
    | (key, v) =>
      cases h : line.sku == key <;> simp [overrideChain, lookupFirst, h, ih]

lemma resolveProductCode_eq_lookupFirst (line : OrderLine) :
    resolveProductCode line =
      match lookupFirst line.sku skuOverrides with
      | some c => c
      | none => if line.merchantSku == "merchantSku" then line.sku
                else line.merchantSku :=
  (resolveProductCode_eq_overrideChain line).trans
    (overrideChain_eq_lookupFirst line skuOverrides)

/-- C6 counterexample: the table's later entry
`("TYBNTUAF3RG4369H97", "6291108730515")` is shadowed by an earlier entry
with the same key and a different code, so a line with that raw SKU gets
code `"6291108737194"`, not this entry's code. -/
theorem sku_override_shadowed_entry_counterexample :
    ("TYBNTUAF3RG4369H97", "6291108730515") ∈ skuOverrides
  ∧ resolveProductCode
      { sku := "TYBNTUAF3RG4369H97", merchantSku := "ANY-MSKU", barcode := "",
        productName := "", quantity := 1, price := 0, vatRate := 19 }
      = "6291108737194"
  ∧ ("6291108737194" : String) ≠ "6291108730515" :=
  ⟨by decide, by decide, by decide⟩

/-- C6 (amended): for every literal entry that is the first in the table
with its key — equivalently whenever first-match lookup of the raw SKU in
the table yields a code — the invoice line's product code is that code,
whatever the merchant-SKU holds (the override takes precedence over the
merchant-SKU preference and the raw-SKU placeholder fallback); when no
entry matches, the merchant-SKU is used, falling back to the raw SKU
exactly when the merchant-SKU literally equals `"merchantSku"`. -/
theorem sku_override_first_match_precedence (line : OrderLine) :
    (∀ code : String, lookupFirst line.sku skuOverrides = some code →
       resolveProductCode line = code)
  ∧ (lookupFirst line.sku skuOverrides = none →
       resolveProductCode line
         = if line.merchantSku == "merchantSku" then line.sku
           else line.merchantSku) := by
  constructor
  · intro code h
    rw [resolveProductCode_eq_lookupFirst, h]
  · intro h
    rw [resolveProductCode_eq_lookupFirst, h]

/-- Witness for C6 (amended) at the table's first entry, with a merchant
SKU present (showing the override's precedence). -/
theorem sku_override_first_match_precedence_witness :
    resolveProductCode
      { sku := "TYBE5ZISTJCR2Q5O74", merchantSku := "SOME-MSKU", barcode := "",
        productName := "", quantity := 1, price := 0, vatRate := 19 }
      = "6290360593661" :=
  (sku_override_first_match_precedence
    { sku := "TYBE5ZISTJCR2Q5O74", merchantSku := "SOME-MSKU", barcode := "",
      productName := "", quantity := 1, price := 0, vatRate := 19 }).1
    "6290360593661" (by decide)

lemma subListOf_oss_pattern (rest : List Char) :
    subListOf "-OSS".toList ('-' :: 'O' :: 'S' :: 'S' :: rest) = true := by
  rw [subListOf]
  apply Bool.or_eq_true_iff.mpr
  left
  simp [List.isPrefixOf]

lemma subListOf_cons_false {n : List Char} {c : Char} {rest : List Char}
    (h : subListOf n (c :: rest) = false) : subListOf n rest = false := by
  rw [subListOf] at h
  exact (Bool.or_eq_false_iff.mp h).2

lemma stripOSSList_id (u : List Char) (h : subListOf "-OSS".toList u = false) :
    stripOSSList u = u := by
  induction u using stripOSSList.induct with
  | case1 => rfl
  | case2 rest ih =>
    rw [subListOf_oss_pattern rest] at h
    exact absurd h (by simp)
  | case3 c rest hne ih =>
    rw [stripOSSList.eq_3 c rest hne, ih (subListOf_cons_false h)]

lemma stripOSSList_append_oss (u : List Char)
    (h : subListOf "-OSS".toList u = false) :
    stripOSSList (u ++ "-OSS".toList) = u := by
  induction u with
  | nil => rfl
  | cons c u2 ih =>
    have hne : ∀ rest1 : List Char, c = '-' →
        u2 ++ "-OSS".toList = 'O' :: 'S' :: 'S' :: rest1 → False := by
      intro r hc hr
      subst hc
      rcases u2 with _ | ⟨a, _ | ⟨b, _ | ⟨d, u3⟩⟩⟩
      · simp at hr
      · simp only [List.cons_append, List.nil_append, List.cons.injEq] at hr
        have h2 := hr.2
        rw [show "-OSS".toList = ['-', 'O', 'S', 'S'] from rfl] at h2
        simp only [List.cons.injEq] at h2
        exact absurd h2.1 (by decide)
      · simp only [List.cons_append, List.nil_append, List.cons.injEq] at hr
        have h2 := hr.2.2
        rw [show "-OSS".toList = ['-', 'O', 'S', 'S'] from rfl] at h2
        simp only [List.cons.injEq] at h2
        exact absurd h2.1 (by decide)
      · simp only [List.cons_append, List.cons.injEq] at hr
        obtain ⟨ha, hb, hd, -⟩ := hr
        subst ha
        subst hb
        subst hd
        rw [subListOf_oss_pattern] at h
        exact absurd h (by simp)
    show stripOSSList (c :: (u2 ++ "-OSS".toList)) = c :: u2
    rw [stripOSSList.eq_3 c (u2 ++ "-OSS".toList) hne,
        ih (subListOf_cons_false h)]

lemma string_mk_toList (s : String) : String.mk s.toList = s := rfl

lemma append_toList (a b : String) : (a ++ b).toList = a.toList ++ b.toList := rfl

lemma ossSeriesName_idem_of_clean (s : String)
    (h : hasOSS (stripOSS s) = false) :
    ossSeriesName (ossSeriesName s) = ossSeriesName s := by
  unfold ossSeriesName
  congr 1
  show stripOSS (stripOSS s ++ "-OSS") = stripOSS s
  unfold stripOSS
  rw [append_toList]
  have h2 : subListOf "-OSS".toList (stripOSS s).toList = false := h
  rw [show (stripOSS s).toList = stripOSSList s.toList from rfl] at h2
  rw [show (String.mk (stripOSSList s.toList)).toList
        = stripOSSList s.toList from rfl]
  rw [stripOSSList_append_oss _ h2]

lemma ossSeriesName_appends_once (s : String) (h : hasOSS s = false) :
    ossSeriesName s = s ++ "-OSS" := by
  unfold ossSeriesName stripOSS
  rw [stripOSSList_id s.toList h, string_mk_toList]

/-- C7 counterexample: the claim's idempotence is universally quantified
over series names, but stripping every `"-OSS"` occurrence can create a
new occurrence: for the series name `"-O-OSSSS"` one application yields
`"-OSS-OSS"` while a second yields `"-OSS"`. -/
theorem oss_suffix_not_idempotent_counterexample :
    ossSeriesName (ossSeriesName "-O-OSSSS") ≠ ossSeriesName "-O-OSSSS" := by
  decide

/-- C7 (amended): the OSS suffix rule is idempotent for every series name
whose stripped form contains no `"-OSS"` occurrence (in particular every
realistic name, where a single application removes all occurrences and
appends the suffix exactly once); and for every order the generated draft
has `useIntraCif = false` with the series unchanged when the order
currency is `"RON"`, and `useIntraCif = true` with the suffix rule applied
to the fetched series when the currency differs. -/
theorem oss_suffix_idempotent_on_clean_names_and_currency_flag
    (s : String) (order : Order) (user : AppUser) (useGestiune : Bool)
    (seriesFetched : Option String) (postal : Option (String × String))
    (today : String) (h : hasOSS (stripOSS s) = false) :
    ossSeriesName (ossSeriesName s) = ossSeriesName s
  ∧ (hasOSS s = false → ossSeriesName s = s ++ "-OSS")
  ∧ (order.currencyCode.getD "RON" = "RON" →
       (generateInvoiceData order user useGestiune seriesFetched postal
          today).useIntraCif = false
     ∧ (generateInvoiceData order user useGestiune seriesFetched postal
          today).seriesName = seriesFetched.getD "SERIE_FACTURA")
  ∧ (order.currencyCode.getD "RON" ≠ "RON" →
       (generateInvoiceData order user useGestiune seriesFetched postal
          today).useIntraCif = true
     ∧ (generateInvoiceData order user useGestiune seriesFetched postal
          today).seriesName
         = ossSeriesName (seriesFetched.getD "SERIE_FACTURA")) := by
  refine ⟨ossSeriesName_idem_of_clean s h, ossSeriesName_appends_once s, ?_, ?_⟩
  · intro hcur
    unfold generateInvoiceData
    simp only [hcur]
    simp
  · intro hcur
    unfold generateInvoiceData
    simp only []
    constructor
    · simp [hcur]
    · simp [hcur]

/-- Witness for C7 (amended) at the already-suffixed series name
`"FACT-OSS"` and the concrete EUR order. -/
theorem oss_suffix_idempotent_on_clean_names_and_currency_flag_witness :
    ossSeriesName (ossSeriesName "FACT-OSS") = ossSeriesName "FACT-OSS"
  ∧ (hasOSS "FACT-OSS" = false → ossSeriesName "FACT-OSS" = "FACT-OSS" ++ "-OSS")
  ∧ (euroOrder.currencyCode.getD "RON" = "RON" →
       (generateInvoiceData euroOrder normalUser true (some "FACT") none
          "2026-01-01").useIntraCif = false
     ∧ (generateInvoiceData euroOrder normalUser true (some "FACT") none
          "2026-01-01").seriesName = (some "FACT").getD "SERIE_FACTURA")
  ∧ (euroOrder.currencyCode.getD "RON" ≠ "RON" →
       (generateInvoiceData euroOrder normalUser true (some "FACT") none
          "2026-01-01").useIntraCif = true
     ∧ (generateInvoiceData euroOrder normalUser true (some "FACT") none
          "2026-01-01").seriesName = ossSeriesName ((some "FACT").getD "SERIE_FACTURA")) :=
  oss_suffix_idempotent_on_clean_names_and_currency_flag "FACT-OSS" euroOrder
    normalUser true (some "FACT") none "2026-01-01" (by decide)

end Facturi
